import Mathlib

/-!
Verification of the d4z authentication core: a shallow embedding in Lean 4 of
the token codec (`app/core/security.py`), the request-authentication gate
(`app/core/dependencies.py`), the user/session service (`app/services/users.py`)
and the auth endpoints (`app/api/v1/endpoints/auth.py`), together with proofs
of the behavioural claims about them.

Conventions of the embedding:
* timestamps are `Nat` (seconds); `timedelta(minutes=m)` is `m * 60`,
  `timedelta(hours=h)` is `h * 3600`;
* a JWT is modelled as a signed payload value (or a malformed blob); encoding
  and signature checking are by construction, expiry is checked against `now`;
* Python exceptions become `Except` values; falsy strings (`None` or `""`)
  are tested by `pyTruthyStr`;
* the database rows live in plain lists; ORM `save` is an id-keyed update.
-/

/-- `timedelta(minutes = m)` in seconds. -/
def timedeltaMinutes (m : Nat) : Nat := m * 60

/-- `timedelta(hours = h)` in seconds. -/
def timedeltaHours (h : Nat) : Nat := h * 3600

/-- Python truthiness of an optional string: `None` and `""` are falsy. -/
def pyTruthyStr : Option String → Bool
  | none => false
  | some s => !(s = "")

/-- The configuration object from `app/core/config.py` (`Settings`).
Only the fields that are actually declared there are present; in particular
`PASSWORD_RESET_TOKEN_EXPIRE_HOURS` is NOT a field of the source `Settings`
class, which matters for `request_password_reset`. -/
structure Settings where
  SECRET_KEY : String
  ALGORITHM : String
  ACCESS_TOKEN_EXPIRE_MINUTES : Nat
  REFRESH_TOKEN_EXPIRE_MINUTES : Nat
  EMAIL_VERIFICATION_TOKEN_EXPIRE_HOURS : Nat
deriving DecidableEq, Repr

/-- The claims carried by an encoded JWT: `_create_token` in
`app/core/security.py` builds `{"exp": ..., "sub": ..., "type": ...}` plus an
optional `"user_id"`. -/
structure JwtPayload where
  sub : Option String
  user_id : Option Nat
  type : Option String
  exp : Nat
deriving DecidableEq, Repr

/-- An encoded token string: either a blob signed with some key and algorithm
carrying a payload, or a structurally invalid string. -/
inductive Jwt
  | signed (key : String) (alg : String) (payload : JwtPayload)
  | malformed (raw : String)
deriving DecidableEq, Repr

/-- The errors `jwt.decode` can raise (PyJWT). -/
inductive JwtError
  | expiredSignature
  | invalidToken
deriving DecidableEq, Repr

/-- `jwt.decode(token, secret, algorithms=[alg])`: signature/structure failure
raises `InvalidTokenError`; an `exp` claim not in the future raises
`ExpiredSignatureError`; otherwise the payload is returned. -/
def jwtDecode (secret alg : String) (now : Nat) : Jwt → Except JwtError JwtPayload
  | .malformed _ => .error .invalidToken
  | .signed key a p =>
    if key = secret ∧ a = alg then
      if p.exp ≤ now then .error .expiredSignature else .ok p
    else .error .invalidToken

/-- The payload dict passed into `_create_token` (`{"sub": ..., "user_id": ...}`). -/
structure TokenDict where
  sub : Option String
  user_id : Option Nat
deriving DecidableEq, Repr

/-- `_create_token` from `app/core/security.py`: signs
`{"exp": now + expires_delta, "sub": data.get("sub"), "type": token_type}`
(plus `user_id` when present) with the configured secret and algorithm. -/
def _create_token (s : Settings) (data : TokenDict) (expires_delta : Nat)
    (token_type : String) (now : Nat) : Jwt :=
  .signed s.SECRET_KEY s.ALGORITHM
    { sub := data.sub, user_id := data.user_id, type := some token_type,
      exp := now + expires_delta }

/-- `create_access_token` from `app/core/security.py`. -/
def create_access_token (s : Settings) (data : TokenDict) (now : Nat) : Jwt :=
  _create_token s data (timedeltaMinutes s.ACCESS_TOKEN_EXPIRE_MINUTES) "access" now

/-- `create_refresh_token` from `app/core/security.py`. -/
def create_refresh_token (s : Settings) (data : TokenDict) (now : Nat) : Jwt :=
  _create_token s data (timedeltaMinutes s.REFRESH_TOKEN_EXPIRE_MINUTES) "refresh" now

/-- `TokenData` from `app/schemas/token_schema.py`. -/
structure TokenData where
  username : Option String
  type : Option String
deriving DecidableEq, Repr

/-- `decode_token` from `app/core/security.py`: decodes via PyJWT (re-raising
its errors), then returns `TokenData(username, type)` when the `sub` claim is
truthy and `None` otherwise. -/
def decode_token (s : Settings) (now : Nat) (token : Jwt) :
    Except JwtError (Option TokenData) :=
  match jwtDecode s.SECRET_KEY s.ALGORITHM now token with
  | .error e => .error e
  | .ok payload =>
    let td : TokenData := { username := payload.sub, type := payload.type }
    .ok (if pyTruthyStr payload.sub then some td else none)

/-- Python's `str.lower()` (ASCII case folding on the scheme name). -/
def pyLower (s : String) : String := ⟨s.data.map Char.toLower⟩

/-- `AuthenticationError` from `app/core/exceptions.py` (the only error the
gate raises; FastAPI turns it into a 401 response). -/
inductive AuthError
  | authenticationError (detail : String)
deriving DecidableEq, Repr

/-- The token-validation part of `JWTBearer.__call__` from
`app/core/dependencies.py`, entered once credentials were extracted on a
non-excluded path: reject a non-bearer scheme, decode the token mapping the
PyJWT errors to `AuthenticationError`s, and reject a missing username
(`if not token_data or not token_data.username`). No other check is made
on the decoded payload. -/
def jwtBearerValidate (s : Settings) (now : Nat) (scheme : String) (token : Jwt) :
    Except AuthError TokenData :=
  if ¬ pyLower scheme = "bearer" then
    .error (.authenticationError "Invalid authentication scheme.")
  else
    match decode_token s now token with
    | .error .expiredSignature =>
      .error (.authenticationError "Access token has expired.")
    | .error .invalidToken =>
      .error (.authenticationError "Invalid access token.")
    | .ok none =>
      .error (.authenticationError "Invalid token: Username missing.")
    | .ok (some td) =>
      if ¬ pyTruthyStr td.username then
        .error (.authenticationError "Invalid token: Username missing.")
      else .ok td

/-- A row of the `user` table (`app/models/users.py`). -/
structure UserRec where
  id : Nat
  username : String
  email : Option String
  full_name : Option String
  hashed_password : String
  is_active : Bool
  is_superuser : Bool
  email_verification_token : Option String
  email_verification_token_expires_at : Option Nat
  is_email_verified : Bool
  password_reset_token : Option String
  password_reset_token_expires_at : Option Nat
deriving DecidableEq, Repr

/-- A row of the `session` table (`app/models/session.py`); the refresh-token
column holds the encoded JWT. -/
structure SessionRec where
  id : Nat
  user_id : Nat
  refresh_token : Jwt
  expires_at : Nat
  created_at : Nat
  is_active : Bool
deriving DecidableEq, Repr

/-- An email job handed to the Celery queue (`task_send_*` in
`app/services/utils.py`); the link is represented by the embedded token. -/
inductive EmailMsg
  | verification (email_to : String) (username : String) (token : String)
  | passwordReset (email_to : String) (username : String) (token : String)
deriving DecidableEq, Repr

/-- The persistent state: user and session tables (with the ids the ORM would
assign next) and the queue of dispatched email tasks. -/
structure DB where
  users : List UserRec
  sessions : List SessionRec
  next_user_id : Nat
  next_session_id : Nat
  queued_emails : List EmailMsg
deriving DecidableEq, Repr

/-- The errors the service layer surfaces: `HTTPException(status, detail)`,
plus the two genuine Python runtime errors the services can hit. -/
inductive ApiError
  | httpException (statusCode : Nat) (detail : String)
  | nameError (missing : String)
  | attributeError (attr : String)
deriving DecidableEq, Repr

/-- `UserService.get_user_by_id`. -/
def get_user_by_id (db : DB) (user_id : Nat) : Option UserRec :=
  db.users.find? (fun u => decide (u.id = user_id))

/-- `UserService.get_user_by_username`. -/
def get_user_by_username (db : DB) (username : String) : Option UserRec :=
  db.users.find? (fun u => decide (u.username = username))

/-- `UserService.get_user_by_email`. -/
def get_user_by_email (db : DB) (email : String) : Option UserRec :=
  db.users.find? (fun u => decide (u.email = some email))

/-- `UserService.get_user_session_by_token`. -/
def get_user_session_by_token (db : DB) (refresh_token_value : Jwt) :
    Option SessionRec :=
  db.sessions.find? (fun sess => decide (sess.refresh_token = refresh_token_value))

/-- `user.save(...)`: the ORM writes the row back under its primary key. -/
def saveUser (db : DB) (u : UserRec) : DB :=
  { db with users := db.users.map (fun v => if v.id = u.id then u else v) }

/-- `UserService.deactivate_user_session`: clear `is_active` on the given row
(identified by primary key) when it is still set; otherwise only log. -/
def deactivate_user_session (db : DB) (sid : Nat) : DB :=
  { db with
    sessions := db.sessions.map (fun sess =>
      if sess.id = sid ∧ sess.is_active then { sess with is_active := false }
      else sess) }

/-- `UserService.create_user_session`: re-fetch the user (404 when absent),
then insert a fresh active session row whose expiry is
`now + timedelta(minutes = REFRESH_TOKEN_EXPIRE_MINUTES)`. -/
def create_user_session (s : Settings) (db : DB) (user_id : Nat)
    (refresh_token_value : Jwt) (now : Nat) : DB × Except ApiError SessionRec :=
  match get_user_by_id db user_id with
  | none => (db, .error (.httpException 404 "User not found for session creation"))
  | some user =>
    let sess : SessionRec :=
      { id := db.next_session_id, user_id := user.id,
        refresh_token := refresh_token_value,
        expires_at := now + timedeltaMinutes s.REFRESH_TOKEN_EXPIRE_MINUTES,
        created_at := now, is_active := true }
    ({ db with sessions := db.sessions ++ [sess],
               next_session_id := db.next_session_id + 1 },
     .ok sess)

/-- `UserService.deactivate_all_user_sessions`: bulk-update every active
session of the user to inactive, returning the affected-row count. -/
def deactivate_all_user_sessions (db : DB) (user_id : Nat) : DB × Nat :=
  ({ db with
     sessions := db.sessions.map (fun sess =>
       if sess.user_id = user_id ∧ sess.is_active then { sess with is_active := false }
       else sess) },
   (db.sessions.filter (fun sess => decide (sess.user_id = user_id ∧ sess.is_active))).length)

/-- `UserCreate` from `app/models/users.py` (after schema validation). -/
structure UserCreate where
  username : String
  email : Option String
  password : String
  full_name : Option String
deriving DecidableEq, Repr

/-- `UserService.create_user`: reject a missing email (400), an existing
username (400) and an existing email (400); otherwise insert the new user
inactive and unverified carrying the generated verification token with expiry
`now + timedelta(hours = EMAIL_VERIFICATION_TOKEN_EXPIRE_HOURS)`, and queue
the verification email. `hashPw` is the bcrypt collaborator,
`verification_token` the value drawn from `secrets.token_urlsafe(32)`. -/
def create_user (s : Settings) (hashPw : String → String) (db : DB)
    (user_in : UserCreate) (verification_token : String) (now : Nat) :
    DB × Except ApiError UserRec :=
  if ¬ pyTruthyStr user_in.email then
    (db, .error (.httpException 400 "Email is required."))
  else if db.users.any (fun u => decide (u.username = user_in.username)) then
    (db, .error (.httpException 400 "Username already registered."))
  else if db.users.any (fun u => decide (u.email = user_in.email)) then
    (db, .error (.httpException 400 "Email already registered."))
  else
    let db_user : UserRec :=
      { id := db.next_user_id, username := user_in.username,
        email := user_in.email, full_name := user_in.full_name,
        hashed_password := hashPw user_in.password,
        is_active := false, is_superuser := false,
        email_verification_token := some verification_token,
        email_verification_token_expires_at :=
          some (now + timedeltaHours s.EMAIL_VERIFICATION_TOKEN_EXPIRE_HOURS),
        is_email_verified := false,
        password_reset_token := none, password_reset_token_expires_at := none }
    ({ db with users := db.users ++ [db_user],
               next_user_id := db.next_user_id + 1,
               queued_emails := db.queued_emails ++
                 [.verification (user_in.email.getD "") user_in.username
                   verification_token] },
     .ok db_user)

/-- Expiry test used by both ephemeral-token consumers:
`not expires_at or expires_at < datetime.now(...)` (a `None` expiry counts as
expired, since `not None` is true). -/
def ephemeralExpired (expires_at : Option Nat) (now : Nat) : Bool :=
  match expires_at with
  | none => true
  | some t => decide (t < now)

/-- `UserService.verify_email_token`: look the user up by token (`None` when
absent), return the user unchanged when already verified, clear the token
fields and fail when expired, and otherwise activate + verify the user and
clear the token fields. -/
def verify_email_token (db : DB) (token : String) (now : Nat) :
    DB × Option UserRec :=
  match db.users.find? (fun u => decide (u.email_verification_token = some token)) with
  | none => (db, none)
  | some user =>
    if user.is_email_verified then (db, some user)
    else if ephemeralExpired user.email_verification_token_expires_at now then
      let user' := { user with email_verification_token := none,
                               email_verification_token_expires_at := none }
      (saveUser db user', none)
    else
      let user' := { user with is_active := true, is_email_verified := true,
                               email_verification_token := none,
                               email_verification_token_expires_at := none }
      (saveUser db user', some user')

/-- Python attribute lookup of an integer setting on the `settings` object.
Only the names declared in `app/core/config.py` resolve; any other name
raises `AttributeError` (pydantic settings ignore undeclared fields). -/
def Settings.getIntAttr (s : Settings) (attr : String) : Except ApiError Nat :=
  if attr = "ACCESS_TOKEN_EXPIRE_MINUTES" then .ok s.ACCESS_TOKEN_EXPIRE_MINUTES
  else if attr = "REFRESH_TOKEN_EXPIRE_MINUTES" then .ok s.REFRESH_TOKEN_EXPIRE_MINUTES
  else if attr = "EMAIL_VERIFICATION_TOKEN_EXPIRE_HOURS" then
    .ok s.EMAIL_VERIFICATION_TOKEN_EXPIRE_HOURS
  else .error (.attributeError attr)

/-- `UserService.request_password_reset`: absent or inactive user → `False`
with no state change. For an active user the source computes
`timedelta(hours=settings.PASSWORD_RESET_TOKEN_EXPIRE_HOURS)` — an attribute
`config.py` never declares — so the lookup raises `AttributeError` before the
token fields are assigned or saved; the remainder of the branch (persist the
token, queue the reset email, return `True`) is what would run had the
attribute resolved. -/
def request_password_reset (s : Settings) (db : DB) (email : String)
    (reset_token : String) (now : Nat) : DB × Except ApiError Bool :=
  match get_user_by_email db email with
  | none => (db, .ok false)
  | some user =>
    if user.is_active then
      match s.getIntAttr "PASSWORD_RESET_TOKEN_EXPIRE_HOURS" with
      | .error e => (db, .error e)
      | .ok hrs =>
        let user' := { user with
          password_reset_token := some reset_token,
          password_reset_token_expires_at := some (now + timedeltaHours hrs) }
        ({ saveUser db user' with
           queued_emails := db.queued_emails ++
             [.passwordReset (user.email.getD "") user.username reset_token] },
         .ok true)
    else (db, .ok false)

/-- `UserService.resend_verification_email`: absent or already-verified user →
`False` with no state change. For an unverified user the new token, its expiry
and `is_active = False` are saved, and then the source calls
`send_verification_email_task.delay(...)` — a name that does not exist in
`app/services/users.py` (the import is `task_send_verification_email`) — so a
`NameError` is raised after the save and before any email is queued. -/
def resend_verification_email (s : Settings) (db : DB) (email : String)
    (new_verification_token : String) (now : Nat) : DB × Except ApiError Bool :=
  match get_user_by_email db email with
  | none => (db, .ok false)
  | some user =>
    if ¬ user.is_email_verified then
      let user' := { user with
        email_verification_token := some new_verification_token,
        email_verification_token_expires_at :=
          some (now + timedeltaHours s.EMAIL_VERIFICATION_TOKEN_EXPIRE_HOURS),
        is_active := false }
      (saveUser db user', .error (.nameError "send_verification_email_task"))
    else (db, .ok false)

/-- `UserService.reset_password`: look the user up by reset token (`None` when
absent); when the token is expired clear the token fields and fail; otherwise
store the new password hash, clear the token fields and set the user active. -/
def reset_password (hashPw : String → String) (db : DB) (token : String)
    (new_password : String) (now : Nat) : DB × Option UserRec :=
  match db.users.find? (fun u => decide (u.password_reset_token = some token)) with
  | none => (db, none)
  | some user =>
    if ephemeralExpired user.password_reset_token_expires_at now then
      let user' := { user with password_reset_token := none,
                               password_reset_token_expires_at := none }
      (saveUser db user', none)
    else
      let user' := { user with hashed_password := hashPw new_password,
                               password_reset_token := none,
                               password_reset_token_expires_at := none,
                               is_active := true }
      (saveUser db user', some user')

/-- `UserUpdate` from `app/models/users.py`: the optional fields a PATCH may
carry (`None` = not provided, matching `model_dump(exclude_unset=True)`). -/
structure UserUpdate where
  username : Option String := none
  email : Option String := none
  full_name : Option String := none
  password : Option String := none
  is_active : Option Bool := none
  is_superuser : Option Bool := none
deriving DecidableEq, Repr

/-- `UserService.update_user`: 404 when the user is absent; hash a provided
non-empty password; reject an email or username change that collides with
another user (400); then apply the provided fields and save. (A provided empty
password is dropped by the `hasattr` guard in the source and changes
nothing.) -/
def update_user (hashPw : String → String) (db : DB) (user_id : Nat)
    (user_in : UserUpdate) : DB × Except ApiError UserRec :=
  match get_user_by_id db user_id with
  | none => (db, .error (.httpException 404 "User not found for update"))
  | some db_user =>
    if user_in.email.isSome ∧ user_in.email ≠ db_user.email ∧
        db.users.any (fun u => decide (u.email = user_in.email ∧ u.id ≠ db_user.id)) then
      (db, .error (.httpException 400 "Email already registered by another user."))
    else if user_in.username.isSome ∧ user_in.username ≠ some db_user.username ∧
        db.users.any (fun u =>
          decide (some u.username = user_in.username ∧ u.id ≠ db_user.id)) then
      (db, .error (.httpException 400 "Username already taken."))
    else
      let user' : UserRec :=
        { db_user with
          hashed_password :=
            match user_in.password with
            | some p => if p = "" then db_user.hashed_password else hashPw p
            | none => db_user.hashed_password,
          username := user_in.username.getD db_user.username,
          email := match user_in.email with
                   | some e => some e
                   | none => db_user.email,
          full_name := match user_in.full_name with
                       | some f => some f
                       | none => db_user.full_name,
          is_active := user_in.is_active.getD db_user.is_active,
          is_superuser := user_in.is_superuser.getD db_user.is_superuser }
      (saveUser db user', .ok user')

/-- The `Token` wire schema (`app/schemas/token_schema.py`). -/
structure Token where
  access_token : Jwt
  refresh_token : Jwt
  token_type : String
deriving DecidableEq, Repr

/-- The visible part of a `BaseResponse` as the logout endpoint builds it. -/
structure LogoutResp where
  success : Bool
  message : String
deriving DecidableEq, Repr

/-- The `/login` endpoint (`app/api/v1/endpoints/auth.py`): absent user, empty
stored hash or password mismatch → 401 `"Incorrect username or password"`;
inactive user → 400; otherwise issue the access and refresh tokens for
`{"sub": username, "user_id": id}`, record the session for the refresh token
and return the pair. `verifyPw` is the bcrypt verification collaborator. -/
def login (s : Settings) (verifyPw : String → String → Bool) (db : DB)
    (username password : String) (now : Nat) : DB × Except ApiError Token :=
  match get_user_by_username db username with
  | none => (db, .error (.httpException 401 "Incorrect username or password"))
  | some user =>
    if user.hashed_password = "" ∨ ¬ verifyPw password user.hashed_password then
      (db, .error (.httpException 401 "Incorrect username or password"))
    else if ¬ user.is_active then
      (db, .error (.httpException 400
        "Account not active. Please verify your email address first."))
    else
      let result := create_user_session s db user.id
        (create_refresh_token s
          { sub := some user.username, user_id := some user.id } now) now
      (result.1,
       match result.2 with
       | .error e => .error e
       | .ok _ =>
         .ok { access_token := create_access_token s
                 { sub := some user.username, user_id := some user.id } now,
               refresh_token := create_refresh_token s
                 { sub := some user.username, user_id := some user.id } now,
               token_type := "bearer" })

/-- The `/refresh_token` endpoint (`app/api/v1/endpoints/auth.py`): decode the
presented token (PyJWT failures → 401), require a truthy username and type
`"refresh"`, look the session up by token value (absent → 401 not-found,
inactive → 401 invalidated, expired → deactivate + 401), re-fetch the owner
(absent/inactive → deactivate + 401), and finally rotate: deactivate the old
session, issue a fresh pair, create the new session. All
`AuthenticationError`s surface as `HTTPException(401, detail)`. -/
def refresh_access_token (s : Settings) (db : DB) (refresh_token : Jwt)
    (now : Nat) : DB × Except ApiError Token :=
  match decode_token s now refresh_token with
  | .error .expiredSignature =>
    (db, .error (.httpException 401 "Refresh token signature has expired (JWT lib check)"))
  | .error .invalidToken =>
    (db, .error (.httpException 401 "Invalid refresh token (JWT lib check)"))
  | .ok none =>
    (db, .error (.httpException 401 "Invalid refresh token payload or type"))
  | .ok (some token_data) =>
    if ¬ pyTruthyStr token_data.username ∨ token_data.type ≠ some "refresh" then
      (db, .error (.httpException 401 "Invalid refresh token payload or type"))
    else
      match get_user_session_by_token db refresh_token with
      | none => (db, .error (.httpException 401 "Refresh token not found or already used"))
      | some user_session =>
        if ¬ user_session.is_active then
          (db, .error (.httpException 401 "Refresh token has been invalidated"))
        else if user_session.expires_at < now then
          (deactivate_user_session db user_session.id,
           .error (.httpException 401 "Refresh token has expired"))
        else
          match get_user_by_id db user_session.user_id with
          | none =>
            (deactivate_user_session db user_session.id,
             .error (.httpException 401 "User associated with refresh token not found"))
          | some user =>
            if ¬ user.is_active then
              (deactivate_user_session db user_session.id,
               .error (.httpException 401 "User is inactive"))
            else
              let result := create_user_session s
                (deactivate_user_session db user_session.id) user.id
                (create_refresh_token s
                  { sub := some user.username, user_id := some user.id } now)
                now
              (result.1,
               match result.2 with
               | .error e => .error e
               | .ok _ =>
                 .ok { access_token := create_access_token s
                         { sub := some user.username,
                           user_id := some user.id } now,
                       refresh_token := create_refresh_token s
                         { sub := some user.username,
                           user_id := some user.id } now,
                       token_type := "bearer" })

/-- The `/logout` endpoint (`app/api/v1/endpoints/auth.py`): when the session
is absent or already inactive, answer the generic
`"Logout processed (token not found or already inactive)."` success without
touching any state; otherwise deactivate it (the owner-mismatch check on the
access token only logs and never changes the outcome) and answer
`"Successfully logged out."`. -/
def logout_user (db : DB) (access_token_data : Option TokenData)
    (refresh_token : Jwt) : DB × LogoutResp :=
  match get_user_session_by_token db refresh_token with
  | none =>
    (db, { success := true,
           message := "Logout processed (token not found or already inactive)." })
  | some user_session =>
    if ¬ user_session.is_active then
      (db, { success := true,
             message := "Logout processed (token not found or already inactive)." })
    else
      (deactivate_user_session db user_session.id,
       { success := true, message := "Successfully logged out." })

/-- Concrete settings used by the closed instances below (defaults of
`app/core/config.py`: access 30 min, refresh 8 days, verification TTL 1 h). -/
def gateSettings : Settings :=
  { SECRET_KEY := "topsecret", ALGORITHM := "HS256",
    ACCESS_TOKEN_EXPIRE_MINUTES := 30,
    REFRESH_TOKEN_EXPIRE_MINUTES := 60 * 24 * 8,
    EMAIL_VERIFICATION_TOKEN_EXPIRE_HOURS := 1 }

/-- A well-signed, unexpired refresh-typed token for the gate instances. -/
def gateRefreshTok : Jwt :=
  .signed "topsecret" "HS256"
    { sub := some "alice", user_id := some 1, type := some "refresh", exp := 100 }

/-- A well-signed, unexpired access-typed token with no `sub` claim. -/
def gateNoSubTok : Jwt :=
  .signed "topsecret" "HS256"
    { sub := none, user_id := some 1, type := some "access", exp := 100 }

/-- Whether an encoded token's `exp` claim is still in the future. -/
def jwtUnexpired (tok : Jwt) (now : Nat) : Bool :=
  match tok with
  | .signed _ _ p => decide (now < p.exp)
  | .malformed _ => false

/-- The session row `login` records for user `u` at time `now`. -/
def loginSession (s : Settings) (db : DB) (u : UserRec) (now : Nat) : SessionRec :=
  { id := db.next_session_id, user_id := u.id,
    refresh_token := create_refresh_token s
      { sub := some u.username, user_id := some u.id } now,
    expires_at := now + timedeltaMinutes s.REFRESH_TOKEN_EXPIRE_MINUTES,
    created_at := now, is_active := true }

/-- The two responses the logout endpoint can build. -/
def logoutNoopResp : LogoutResp :=
  { success := true,
    message := "Logout processed (token not found or already inactive)." }

def logoutOkResp : LogoutResp :=
  { success := true, message := "Successfully logged out." }

/-! ### The reachable operations, as state-transition functions -/

/-- The user-lifecycle operations reachable through the API. -/
inductive UserOp
  | registerOp (user_in : UserCreate) (tok : String) (now : Nat)
  | verifyEmailOp (tok : String) (now : Nat)
  | resendOp (email : String) (tok : String) (now : Nat)
  | requestResetOp (email : String) (tok : String) (now : Nat)
  | resetPasswordOp (tok : String) (newPw : String) (now : Nat)

/-- The state transition a user-lifecycle operation performs. -/
def userStep (s : Settings) (hashPw : String → String) (db : DB) : UserOp → DB
  | .registerOp ui tok now => (create_user s hashPw db ui tok now).1
  | .verifyEmailOp tok now => (verify_email_token db tok now).1
  | .resendOp e tok now => (resend_verification_email s db e tok now).1
  | .requestResetOp e tok now => (request_password_reset s db e tok now).1
  | .resetPasswordOp tok pw now => (reset_password hashPw db tok pw now).1

/-- The §3 user invariant (first conjunct) together with the auxiliary fact
making it inductive: a user holding a password-reset token is verified. -/
def userOk (u : UserRec) : Prop :=
  (u.is_email_verified = false → u.is_active = false) ∧
  (u.password_reset_token ≠ none → u.is_email_verified = true)

def userInvariant (db : DB) : Prop := ∀ u ∈ db.users, userOk u

/-- The session-touching operations reachable through the API. -/
inductive AuthOp
  | loginOp (username password : String) (now : Nat)
  | refreshOp (tok : Jwt) (now : Nat)
  | logoutOp (access : Option TokenData) (tok : Jwt)
  | deactivateOp (sid : Nat)
  | deactivateAllOp (uid : Nat)

/-- The state transition a session-touching operation performs. -/
def authStep (s : Settings) (verifyPw : String → String → Bool) (db : DB) :
    AuthOp → DB
  | .loginOp u p now => (login s verifyPw db u p now).1
  | .refreshOp tok now => (refresh_access_token s db tok now).1
  | .logoutOp a tok => (logout_user db a tok).1
  | .deactivateOp sid => deactivate_user_session db sid
  | .deactivateAllOp uid => (deactivate_all_user_sessions db uid).1

/-- Well-formedness: the ORM hands out ids below the next free one. -/
def sessionIdsBounded (db : DB) : Prop :=
  ∀ t ∈ db.sessions, t.id < db.next_session_id

/-- Every session row carrying this id is inactive. -/
def idInactive (db : DB) (sid : Nat) : Prop :=
  ∀ t ∈ db.sessions, t.id = sid → t.is_active = false

def sessOk (db : DB) (sid : Nat) : Prop :=
  sessionIdsBounded db ∧ sid < db.next_session_id ∧ idInactive db sid

/-! ### Concrete fixtures for the closed instances -/

def aliceActive : UserRec :=
  { id := 1, username := "alice", email := some "alice@example.com",
    full_name := none, hashed_password := "h1", is_active := true,
    is_superuser := false, email_verification_token := none,
    email_verification_token_expires_at := none, is_email_verified := true,
    password_reset_token := none, password_reset_token_expires_at := none }

def bobUnverified : UserRec :=
  { id := 2, username := "bob", email := some "bob@example.com",
    full_name := none, hashed_password := "h2", is_active := false,
    is_superuser := false, email_verification_token := some "oldtok",
    email_verification_token_expires_at := some 10, is_email_verified := false,
    password_reset_token := none, password_reset_token_expires_at := none }

def carolInactive : UserRec :=
  { id := 3, username := "carol", email := some "carol@example.com",
    full_name := none, hashed_password := "h3", is_active := false,
    is_superuser := false, email_verification_token := none,
    email_verification_token_expires_at := none, is_email_verified := true,
    password_reset_token := none, password_reset_token_expires_at := none }

def svcDb : DB :=
  { users := [aliceActive, bobUnverified, carolInactive], sessions := [],
    next_user_id := 4, next_session_id := 1, queued_emails := [] }

def bobAfterResend : UserRec :=
  { bobUnverified with email_verification_token := some "newtok",
                       email_verification_token_expires_at := some 3600,
                       is_active := false }

def bobForcedActive : UserRec := { bobUnverified with is_active := true }

def inactiveSess : SessionRec :=
  { id := 7, user_id := 1, refresh_token := gateRefreshTok, expires_at := 1000,
    created_at := 0, is_active := false }

def logoutDb2 : DB := { svcDb with sessions := [inactiveSess], next_session_id := 8 }

def daveExpired : UserRec :=
  { id := 5, username := "dave", email := some "dave@example.com",
    full_name := none, hashed_password := "h5", is_active := false,
    is_superuser := false, email_verification_token := some "evtok",
    email_verification_token_expires_at := some 10, is_email_verified := false,
    password_reset_token := some "prtok",
    password_reset_token_expires_at := some 10 }

def expiredDb : DB :=
  { users := [daveExpired], sessions := [], next_user_id := 6,
    next_session_id := 1, queued_emails := [] }

def daveVerifCleared : UserRec :=
  { daveExpired with email_verification_token := none,
                     email_verification_token_expires_at := none }

def daveResetCleared : UserRec :=
  { daveExpired with password_reset_token := none,
                     password_reset_token_expires_at := none }

/-- A bcrypt-collaborator stand-in under which `"h1"` is the hash of `"1"`. -/
def loginVerify : String → String → Bool := fun p h => h = "h" ++ p

/-- A hashing-collaborator stand-in. -/
def fixHash : String → String := fun p => "h" ++ p

def c1Tok : Jwt :=
  create_refresh_token gateSettings { sub := some "alice", user_id := some 1 } 0

def c1Sess : SessionRec :=
  { id := 1, user_id := 1, refresh_token := c1Tok, expires_at := 691200,
    created_at := 0, is_active := true }

def c1Db : DB :=
  { users := [aliceActive], sessions := [c1Sess], next_user_id := 2,
    next_session_id := 2, queued_emails := [] }

/-! ## Shared lemmas about the codec and the gate -/

lemma jwtDecode_signed (secret alg key a : String) (now : Nat) (p : JwtPayload) :
    jwtDecode secret alg now (.signed key a p) =
      if key = secret ∧ a = alg then
        if p.exp ≤ now then .error .expiredSignature else .ok p
      else .error .invalidToken := rfl

lemma jwtDecode_ok_inv (secret alg : String) (now : Nat) (tok : Jwt)
    (p : JwtPayload) (h : jwtDecode secret alg now tok = .ok p) :
    tok = .signed secret alg p ∧ now < p.exp := by
  cases tok with
  | malformed r => simp [jwtDecode] at h
  | signed key a q =>
    rw [jwtDecode_signed] at h
    split at h
    · rename_i hk
      split at h
      · simp at h
      · cases h
        exact ⟨by rw [hk.1, hk.2], by omega⟩
    · simp at h

lemma jwtDecode_signed_ok (secret alg : String) (now : Nat) (p : JwtPayload)
    (h : now < p.exp) :
    jwtDecode secret alg now (.signed secret alg p) = .ok p := by
  rw [jwtDecode_signed, if_pos ⟨rfl, rfl⟩, if_neg (by omega)]

lemma decode_token_ok_some_truthy (s : Settings) (now : Nat) (tok : Jwt)
    (td : TokenData) (h : decode_token s now tok = .ok (some td)) :
    pyTruthyStr td.username = true := by
  unfold decode_token at h
  split at h
  · exact absurd h (by simp)
  · rename_i p hp
    simp only [Except.ok.injEq] at h
    split at h
    · rename_i hc
      cases h
      simpa using hc
    · simp at h

lemma jwtBearerValidate_eq (s : Settings) (now : Nat) (tok : Jwt) :
    jwtBearerValidate s now "Bearer" tok =
      match decode_token s now tok with
      | .error .expiredSignature =>
        .error (.authenticationError "Access token has expired.")
      | .error .invalidToken =>
        .error (.authenticationError "Invalid access token.")
      | .ok none =>
        .error (.authenticationError "Invalid token: Username missing.")
      | .ok (some td) =>
        if ¬ pyTruthyStr td.username then
          .error (.authenticationError "Invalid token: Username missing.")
        else .ok td := by
  unfold jwtBearerValidate
  rw [if_neg (by decide)]

/-! ## C2 — the bearer gate and the token type -/

/-- C2, counterexample: a well-signed, unexpired token of type `"refresh"`
with a subject is ACCEPTED by the gate (`JWTBearer.__call__` never inspects
`token_data.type`), so the claim that any non-`"access"` type is rejected is
false. -/
theorem claim_C2_counterexample :
    jwtBearerValidate gateSettings 0 "Bearer" gateRefreshTok =
      .ok { username := some "alice", type := some "refresh" } ∧
    jwtDecode gateSettings.SECRET_KEY gateSettings.ALGORITHM 0 gateRefreshTok =
      .ok { sub := some "alice", user_id := some 1, type := some "refresh",
            exp := 100 } ∧
    (some "refresh" : Option String) ≠ some "access" :=
  ⟨rfl, rfl, by decide⟩

/-- C2 (amended): the gate requires a subject — a decoded payload with a
missing username is rejected with `AuthenticationError`, and any decode
failure raises `AuthenticationError` — but it performs NO check on the token
type: every successfully decoded `TokenData` (of any type, including
`"refresh"`) is accepted as is. -/
theorem claim_C2 (s : Settings) (now : Nat) (tok : Jwt) :
    (∀ e, decode_token s now tok = .error e →
      ∃ m, jwtBearerValidate s now "Bearer" tok =
        .error (.authenticationError m)) ∧
    (decode_token s now tok = .ok none →
      jwtBearerValidate s now "Bearer" tok =
        .error (.authenticationError "Invalid token: Username missing.")) ∧
    (∀ td, decode_token s now tok = .ok (some td) →
      jwtBearerValidate s now "Bearer" tok = .ok td) := by
  refine ⟨?_, ?_, ?_⟩
  · intro e he
    rw [jwtBearerValidate_eq, he]
    cases e
    · exact ⟨_, rfl⟩
    · exact ⟨_, rfl⟩
  · intro h
    rw [jwtBearerValidate_eq, h]
  · intro td h
    rw [jwtBearerValidate_eq, h]
    simp [decode_token_ok_some_truthy s now tok td h]

/-- C2, witness: the amended theorem applied to the concrete refresh-typed
token shows it passes the gate. -/
theorem claim_C2_witness :
    jwtBearerValidate gateSettings 0 "Bearer" gateRefreshTok =
      .ok { username := some "alice", type := some "refresh" } :=
  (claim_C2 gateSettings 0 gateRefreshTok).2.2
    { username := some "alice", type := some "refresh" } rfl

/-! ## C10 — missing subject is the one decode outcome reported by value -/

/-- C10: a correctly signed, unexpired token whose `sub` claim is absent or
empty is exactly the case in which `decode_token` returns `None` instead of
raising — `decode_token` returns `.ok none` iff the token is well-signed,
unexpired and has a falsy subject — and the gate converts that `None` into
`AuthenticationError "Invalid token: Username missing."`. -/
theorem claim_C10 (s : Settings) (now : Nat) :
    (∀ tok, decode_token s now tok = .ok none ↔
      ∃ p, tok = .signed s.SECRET_KEY s.ALGORITHM p ∧ now < p.exp ∧
        pyTruthyStr p.sub = false) ∧
    (∀ tok, decode_token s now tok = .ok none →
      jwtBearerValidate s now "Bearer" tok =
        .error (.authenticationError "Invalid token: Username missing.")) := by
  constructor
  · intro tok
    constructor
    · intro h
      unfold decode_token at h
      split at h
      · simp at h
      · rename_i p hp
        obtain ⟨htok, hlt⟩ := jwtDecode_ok_inv _ _ _ _ _ hp
        refine ⟨p, htok, hlt, ?_⟩
        simp only [Except.ok.injEq] at h
        split at h
        · simp at h
        · rename_i hc
          simpa using hc
    · rintro ⟨p, rfl, hlt, hsub⟩
      unfold decode_token
      rw [jwtDecode_signed_ok _ _ _ _ hlt]
      simp [hsub]
  · intro tok h
    rw [jwtBearerValidate_eq, h]

/-- C10, witness: the theorem applied to a concrete signed token without a
`sub` claim. -/
theorem claim_C10_witness :
    jwtBearerValidate gateSettings 0 "Bearer" gateNoSubTok =
      .error (.authenticationError "Invalid token: Username missing.") :=
  (claim_C10 gateSettings 0).2 gateNoSubTok rfl

/-! ## C6 — password-reset request -/

/-- C6 (code bug): for an active user found by email, `request_password_reset`
reads `settings.PASSWORD_RESET_TOKEN_EXPIRE_HOURS`, an attribute
`app/core/config.py` never declares, so the call raises `AttributeError`
before persisting anything or queueing any email — it can never issue the
token with the spec's 1-hour default TTL. The no-op halves of the claim
(absent user, inactive user: no state change, `False` reported) do hold. -/
theorem claim_C6 :
    request_password_reset gateSettings svcDb "alice@example.com" "resettok" 0 =
      (svcDb, .error (.attributeError "PASSWORD_RESET_TOKEN_EXPIRE_HOURS")) ∧
    request_password_reset gateSettings svcDb "carol@example.com" "resettok" 0 =
      (svcDb, .ok false) ∧
    request_password_reset gateSettings svcDb "missing@example.com" "resettok" 0 =
      (svcDb, .ok false) :=
  ⟨rfl, rfl, rfl⟩

/-! ## C7 — resending the verification email -/

/-- C7 (code bug): for an unverified user found by email,
`resend_verification_email` does overwrite the verification token and set
`is_active = false` and persist both, but it then calls
`send_verification_email_task.delay(...)` — a name that does not exist in
`app/services/users.py` (the import is `task_send_verification_email`) — so a
`NameError` is raised: no email is ever queued and success is never returned.
The no-op halves (absent user, already-verified user) do hold. -/
theorem claim_C7 :
    resend_verification_email gateSettings svcDb "bob@example.com" "newtok" 0 =
      ({ svcDb with users := [aliceActive, bobAfterResend, carolInactive] },
       .error (.nameError "send_verification_email_task")) ∧
    resend_verification_email gateSettings svcDb "alice@example.com" "newtok" 0 =
      (svcDb, .ok false) ∧
    resend_verification_email gateSettings svcDb "missing@example.com" "newtok" 0 =
      (svcDb, .ok false) :=
  ⟨rfl, rfl, rfl⟩

/-! ## C9 — logout does not enumerate token state -/

/-- C9: a logout with an unknown refresh token and a logout with a known but
already-inactive one return the one identical success response and change no
state; only a found active session is deactivated (and that is the only state
change of the endpoint). -/
theorem claim_C9 (db1 db2 : DB) (a1 a2 : Option TokenData) (tok1 tok2 : Jwt)
    (sess2 : SessionRec)
    (h1 : get_user_session_by_token db1 tok1 = none)
    (h2 : get_user_session_by_token db2 tok2 = some sess2)
    (h3 : sess2.is_active = false) :
    logout_user db1 a1 tok1 = (db1, logoutNoopResp) ∧
    logout_user db2 a2 tok2 = (db2, logoutNoopResp) ∧
    (∀ db a tok sess, get_user_session_by_token db tok = some sess →
      sess.is_active = true →
      logout_user db a tok =
        (deactivate_user_session db sess.id, logoutOkResp)) := by
  refine ⟨?_, ?_, ?_⟩
  · unfold logout_user
    rw [h1]
    rfl
  · unfold logout_user
    rw [h2]
    simp [h3, logoutNoopResp]
  · intro db a tok sess hf ha
    unfold logout_user
    rw [hf]
    simp [ha, logoutOkResp]

/-- C9, witness: the theorem on a session table without the token and on one
holding it inactive. -/
theorem claim_C9_witness :
    logout_user svcDb none gateRefreshTok = (svcDb, logoutNoopResp) ∧
    logout_user logoutDb2 none gateRefreshTok = (logoutDb2, logoutNoopResp) :=
  ⟨(claim_C9 svcDb logoutDb2 none none gateRefreshTok gateRefreshTok
      inactiveSess rfl rfl rfl).1,
   (claim_C9 svcDb logoutDb2 none none gateRefreshTok gateRefreshTok
      inactiveSess rfl rfl rfl).2.1⟩

/-! ## C8 — expired ephemeral tokens fail and are cleared -/

/-- C8: consuming an ephemeral token whose stored expiry is absent or past
fails returning `none` and, in the same call, clears the token and expiry
fields on the user row (for the verification flow this is the behaviour on a
not-yet-verified holder — an already-verified holder is answered earlier, per
§4.6); once the holder was the only row carrying the token, a later attempt
with the same token finds nobody and fails again, so the token can never
succeed. The reset flow needs no extra hypothesis. -/
theorem claim_C8 (db : DB) (token : String) (now : Nat) (u : UserRec) :
    (db.users.find? (fun v => decide (v.email_verification_token = some token)) =
        some u →
      u.is_email_verified = false →
      ephemeralExpired u.email_verification_token_expires_at now = true →
      (verify_email_token db token now =
        (saveUser db { u with email_verification_token := none,
                              email_verification_token_expires_at := none },
         none) ∧
       ((∀ v ∈ db.users, v.email_verification_token = some token → v = u) →
        ∀ now', verify_email_token (verify_email_token db token now).1 token now' =
          ((verify_email_token db token now).1, none)))) ∧
    (db.users.find? (fun v => decide (v.password_reset_token = some token)) =
        some u →
      ephemeralExpired u.password_reset_token_expires_at now = true →
      ∀ hashPw new_password,
        reset_password hashPw db token new_password now =
          (saveUser db { u with password_reset_token := none,
                                password_reset_token_expires_at := none },
           none)) := by
  constructor
  · intro hf hv he
    set u' : UserRec := { u with email_verification_token := none, email_verification_token_expires_at := none } with hu'
    have hrun : verify_email_token db token now = (saveUser db u', none) := by
      unfold verify_email_token
      rw [hf]
      simp [hv, he, hu']
    refine ⟨hrun, ?_⟩
    intro huniq now'
    rw [hrun]
    have hnone : (saveUser db u').users.find?
        (fun v => decide (v.email_verification_token = some token)) = none := by
      rw [List.find?_eq_none]
      intro x hx
      simp only [saveUser, List.mem_map] at hx
      obtain ⟨v, hv_mem, rfl⟩ := hx
      by_cases hid : v.id = u'.id
      · simp [hid, hu']
      · simp only [if_neg hid]
        simp only [decide_eq_true_eq]
        intro hvtok
        apply hid
        rw [huniq v hv_mem hvtok, hu']
    conv_lhs => unfold verify_email_token
    rw [hnone]
  · intro hf he hashPw new_password
    unfold reset_password
    rw [hf]
    simp [he]

/-- C8, witness: both flows on a user whose tokens expired at time 10,
consumed at time 100. -/
theorem claim_C8_witness :
    verify_email_token expiredDb "evtok" 100 =
      (saveUser expiredDb daveVerifCleared, none) ∧
    reset_password fixHash expiredDb "prtok" "newpw" 100 =
      (saveUser expiredDb daveResetCleared, none) :=
  ⟨((claim_C8 expiredDb "evtok" 100 daveExpired).1 rfl rfl rfl).1,
   (claim_C8 expiredDb "prtok" 100 daveExpired).2 rfl rfl fixHash "newpw"⟩

/-! ## C4 — login -/

lemma decode_create_access (s : Settings) (d : TokenDict) (now t : Nat)
    (ht : t < now + timedeltaMinutes s.ACCESS_TOKEN_EXPIRE_MINUTES)
    (hsub : pyTruthyStr d.sub = true) :
    decode_token s t (create_access_token s d now) =
      .ok (some { username := d.sub, type := some "access" }) := by
  unfold create_access_token _create_token decode_token
  rw [jwtDecode_signed_ok _ _ _ _ (by simpa using ht)]
  simp [hsub]

lemma decode_create_refresh (s : Settings) (d : TokenDict) (now t : Nat)
    (ht : t < now + timedeltaMinutes s.REFRESH_TOKEN_EXPIRE_MINUTES)
    (hsub : pyTruthyStr d.sub = true) :
    decode_token s t (create_refresh_token s d now) =
      .ok (some { username := d.sub, type := some "refresh" }) := by
  unfold create_refresh_token _create_token decode_token
  rw [jwtDecode_signed_ok _ _ _ _ (by simpa using ht)]
  simp [hsub]

/-- C4: `login` fails 401 `"Incorrect username or password"` for an absent
username, and for a present user with an empty stored hash or a failed
password check — in the latter case even when the user is also inactive, so
the credential failure comes before any inactive-account check; a correct
pair on an inactive user fails 400; and a correct pair on an active user
returns a pair whose access half decodes with type `"access"` and refresh
half with type `"refresh"` (while unexpired, for a nonempty username), the
only session side effect being the one new active row for that user. -/
theorem claim_C4 (s : Settings) (verifyPw : String → String → Bool) (db : DB)
    (username password : String) (now : Nat) :
    (get_user_by_username db username = none →
      login s verifyPw db username password now =
        (db, .error (.httpException 401 "Incorrect username or password"))) ∧
    (∀ u, get_user_by_username db username = some u →
      u.hashed_password = "" ∨ verifyPw password u.hashed_password = false →
      login s verifyPw db username password now =
        (db, .error (.httpException 401 "Incorrect username or password"))) ∧
    (∀ u, get_user_by_username db username = some u →
      ¬ u.hashed_password = "" → verifyPw password u.hashed_password = true →
      u.is_active = false →
      login s verifyPw db username password now =
        (db, .error (.httpException 400
          "Account not active. Please verify your email address first."))) ∧
    (∀ u, get_user_by_username db username = some u →
      ¬ u.hashed_password = "" → verifyPw password u.hashed_password = true →
      u.is_active = true →
      login s verifyPw db username password now =
        ({ db with sessions := db.sessions ++ [loginSession s db u now],
                   next_session_id := db.next_session_id + 1 },
         .ok { access_token := create_access_token s
                 { sub := some u.username, user_id := some u.id } now,
               refresh_token := create_refresh_token s
                 { sub := some u.username, user_id := some u.id } now,
               token_type := "bearer" }) ∧
      (¬ u.username = "" →
        (∀ t, t < now + timedeltaMinutes s.ACCESS_TOKEN_EXPIRE_MINUTES →
          decode_token s t (create_access_token s
              { sub := some u.username, user_id := some u.id } now) =
            .ok (some { username := some u.username, type := some "access" })) ∧
        (∀ t, t < now + timedeltaMinutes s.REFRESH_TOKEN_EXPIRE_MINUTES →
          decode_token s t (create_refresh_token s
              { sub := some u.username, user_id := some u.id } now) =
            .ok (some { username := some u.username,
                        type := some "refresh" })))) := by
  refine ⟨?_, ?_, ?_, ?_⟩
  · intro h
    unfold login
    rw [h]
  · intro u hf hbad
    unfold login
    rw [hf]
    rcases hbad with hb | hb <;> simp [hb]
  · intro u hf hne hok hia
    unfold login
    rw [hf]
    simp [hne, hok, hia]
  · intro u hf hne hok hact
    have hmem : u ∈ db.users := List.mem_of_find?_eq_some hf
    have hidfind : ∃ w, get_user_by_id db u.id = some w ∧ w.id = u.id := by
      unfold get_user_by_id
      have : (db.users.find? (fun v => decide (v.id = u.id))).isSome := by
        rw [List.find?_isSome]
        exact ⟨u, hmem, by simp⟩
      obtain ⟨w, hw⟩ := Option.isSome_iff_exists.mp this
      exact ⟨w, hw, by simpa using List.find?_some hw⟩
    obtain ⟨w, hw, hwid⟩ := hidfind
    constructor
    · unfold login
      rw [hf]
      simp only [hne, hok, hact, if_neg, if_pos, not_false_iff, or_false,
        Bool.not_eq_true, not_true, ite_false, ite_true]
      unfold create_user_session
      rw [hw]
      simp [hne, hok, loginSession, hwid]
    · intro hname
      constructor
      · intro t ht
        exact decode_create_access s _ now t ht (by simp [pyTruthyStr, hname])
      · intro t ht
        exact decode_create_refresh s _ now t ht (by simp [pyTruthyStr, hname])

/-- C4, witness: `alice` (active, hash `"h1"` of password `"1"` under the
stand-in hasher) logs in at time 0. -/
theorem claim_C4_witness :
    login gateSettings loginVerify svcDb "alice" "1" 0 =
      ({ svcDb with sessions := [loginSession gateSettings svcDb aliceActive 0],
                    next_session_id := 2 },
       .ok { access_token := create_access_token gateSettings
               { sub := some "alice", user_id := some 1 } 0,
             refresh_token := create_refresh_token gateSettings
               { sub := some "alice", user_id := some 1 } 0,
             token_type := "bearer" }) :=
  ((claim_C4 gateSettings loginVerify svcDb "alice" "1" 0).2.2.2 aliceActive
    rfl (by decide) (by decide) rfl).1

/-! ## C1 — refresh rotation is one-shot -/

lemma decode_token_ok_some_inv (s : Settings) (now : Nat) (tok : Jwt)
    (td : TokenData) (h : decode_token s now tok = .ok (some td)) :
    ∃ p, tok = .signed s.SECRET_KEY s.ALGORITHM p ∧ now < p.exp ∧
      pyTruthyStr p.sub = true ∧ td = { username := p.sub, type := p.type } := by
  unfold decode_token at h
  split at h
  · simp at h
  · rename_i p hp
    obtain ⟨htok, hlt⟩ := jwtDecode_ok_inv _ _ _ _ _ hp
    simp only [Except.ok.injEq] at h
    split at h
    · rename_i hc
      cases h
      exact ⟨p, htok, hlt, hc, rfl⟩
    · simp at h

lemma decode_token_later (s : Settings) (now now' : Nat) (tok : Jwt)
    (td : TokenData) (h : decode_token s now tok = .ok (some td))
    (h2 : jwtUnexpired tok now' = true) :
    decode_token s now' tok = .ok (some td) := by
  obtain ⟨p, rfl, _, hsub, rfl⟩ := decode_token_ok_some_inv s now tok td h
  have hlt' : now' < p.exp := by simpa [jwtUnexpired] using h2
  unfold decode_token
  rw [jwtDecode_signed_ok _ _ _ _ hlt']
  simp [hsub]

lemma refresh_replay_revoked (s : Settings) (db2 : DB) (tok : Jwt)
    (now' : Nat) (td : TokenData) (sess' : SessionRec)
    (hdec : decode_token s now' tok = .ok (some td))
    (hguard : ¬ (¬ pyTruthyStr td.username = true ∨ td.type ≠ some "refresh"))
    (hfind : get_user_session_by_token db2 tok = some sess')
    (hinact : sess'.is_active = false) :
    refresh_access_token s db2 tok now' =
      (db2, .error (.httpException 401 "Refresh token has been invalidated")) := by
  unfold refresh_access_token
  simp only [hdec, if_neg hguard, hfind]
  simp [hinact]

/-- C1: when a refresh succeeds at `now`, its output state holds the old
session row deactivated (the row the old token still points to is inactive),
and presenting the old token again — while it is still within its signed
lifetime — fails with 401 `"Refresh token has been invalidated"` (the
`TokenRevoked` case) and changes nothing. -/
theorem claim_C1 (s : Settings) (db db' : DB) (tok : Jwt) (now now' : Nat)
    (pair : Token)
    (h1 : refresh_access_token s db tok now = (db', .ok pair))
    (h2 : jwtUnexpired tok now' = true) :
    refresh_access_token s db' tok now' =
      (db', .error (.httpException 401 "Refresh token has been invalidated")) ∧
    ∃ sess', get_user_session_by_token db' tok = some sess' ∧
      sess'.is_active = false := by
  unfold refresh_access_token at h1
  split at h1
  · simp at h1
  · simp at h1
  · simp at h1
  · rename_i td hdec
    split at h1
    · simp at h1
    · rename_i hguard
      split at h1
      · simp at h1
      · rename_i sess hsess
        split at h1
        · simp at h1
        · rename_i hact
          split at h1
          · simp at h1
          · rename_i hexp
            split at h1
            · simp at h1
            · rename_i user huser
              split at h1
              · simp at h1
              · rename_i huact
                have huserid : user.id = sess.user_id := by
                  simpa using List.find?_some huser
                have hu2 : get_user_by_id
                    (deactivate_user_session db sess.id) user.id = some user := by
                  show get_user_by_id db user.id = some user
                  rw [huserid]
                  exact huser
                simp only [create_user_session, hu2] at h1
                rw [Prod.mk.injEq] at h1
                obtain ⟨hdb', hpair⟩ := h1
                subst hdb'
                have hdec' : decode_token s now' tok = .ok (some td) :=
                  decode_token_later s now now' tok td hdec h2
                have hsa : sess.is_active = true := by
                  by_contra hc
                  exact hact (by simpa using hc)
                have hpred : ((fun t => decide (t.refresh_token = tok)) ∘
                    (fun t => if t.id = sess.id ∧ t.is_active then
                      { t with is_active := false } else t)) =
                    (fun t : SessionRec => decide (t.refresh_token = tok)) := by
                  funext t
                  by_cases hc : t.id = sess.id ∧ t.is_active
                  · simp [hc]
                  · simp [if_neg hc]
                have hfind2 : get_user_session_by_token
                    ({ deactivate_user_session db sess.id with
                       sessions := (deactivate_user_session db sess.id).sessions ++
                         [{ id := db.next_session_id, user_id := user.id,
                            refresh_token := create_refresh_token s
                              { sub := some user.username, user_id := some user.id }
                              now,
                            expires_at := now +
                              timedeltaMinutes s.REFRESH_TOKEN_EXPIRE_MINUTES,
                            created_at := now, is_active := true }],
                       next_session_id := db.next_session_id + 1 }) tok =
                    some { sess with is_active := false } := by
                  unfold get_user_session_by_token deactivate_user_session
                  simp only [List.find?_append, List.find?_map, hpred]
                  have : db.sessions.find?
                      (fun t => decide (t.refresh_token = tok)) = some sess := hsess
                  rw [this]
                  simp [hsa]
                refine ⟨?_, ⟨{ sess with is_active := false }, hfind2, rfl⟩⟩
                exact refresh_replay_revoked s _ tok now' td _ hdec' hguard
                  hfind2 rfl

/-- C1, witness: a login-issued refresh token for `alice` is rotated at time
10; replaying it at time 20 is rejected as invalidated. -/
theorem claim_C1_witness :
    refresh_access_token gateSettings
        (refresh_access_token gateSettings c1Db c1Tok 10).1 c1Tok 20 =
      ((refresh_access_token gateSettings c1Db c1Tok 10).1,
       .error (.httpException 401 "Refresh token has been invalidated")) :=
  (claim_C1 gateSettings c1Db (refresh_access_token gateSettings c1Db c1Tok 10).1
    c1Tok 10 20
    { access_token := create_access_token gateSettings
        { sub := some "alice", user_id := some 1 } 10,
      refresh_token := create_refresh_token gateSettings
        { sub := some "alice", user_id := some 1 } 10,
      token_type := "bearer" }
    rfl (by decide)).1

/-! ## C5 — the unverified-implies-inactive user invariant -/

lemma userInvariant_saveUser (db : DB) (u' : UserRec)
    (h : userInvariant db) (hu' : userOk u') :
    userInvariant (saveUser db u') := by
  intro v hv
  simp only [saveUser, List.mem_map] at hv
  obtain ⟨w, hw, rfl⟩ := hv
  by_cases hid : w.id = u'.id
  · simpa [hid] using hu'
  · simpa [hid] using h w hw

lemma userStep_invariant (s : Settings) (hashPw : String → String) (db : DB)
    (op : UserOp) (h : userInvariant db) :
    userInvariant (userStep s hashPw db op) := by
  cases op with
  | registerOp ui tok now =>
    show userInvariant (create_user s hashPw db ui tok now).1
    unfold create_user
    split
    · exact h
    · split
      · exact h
      · split
        · exact h
        · intro v hv
          simp only [List.mem_append, List.mem_singleton] at hv
          rcases hv with hv | rfl
          · exact h v hv
          · exact ⟨fun _ => rfl, fun hc => absurd rfl hc⟩
  | verifyEmailOp tok now =>
    show userInvariant (verify_email_token db tok now).1
    unfold verify_email_token
    split
    · exact h
    · rename_i u hu
      have hmem := List.mem_of_find?_eq_some hu
      have hok := h u hmem
      split
      · exact h
      · split
        · exact userInvariant_saveUser db _ h ⟨hok.1, hok.2⟩
        · exact userInvariant_saveUser db _ h
            ⟨fun hc => by simp at hc, fun _ => rfl⟩
  | resendOp e tok now =>
    show userInvariant (resend_verification_email s db e tok now).1
    unfold resend_verification_email
    split
    · exact h
    · rename_i u hu
      have hmem := List.mem_of_find?_eq_some hu
      have hok := h u hmem
      split
      · rename_i hunv
        refine userInvariant_saveUser db _ h ⟨fun _ => rfl, fun hr => ?_⟩
        exact absurd (hok.2 hr) (by simpa using hunv)
      · exact h
  | requestResetOp e tok now =>
    show userInvariant (request_password_reset s db e tok now).1
    unfold request_password_reset
    split
    · exact h
    · rename_i u hu
      split
      · show userInvariant (db, Except.error
          (ApiError.attributeError "PASSWORD_RESET_TOKEN_EXPIRE_HOURS")).1
        exact h
      · exact h
  | resetPasswordOp tok pw now =>
    show userInvariant (reset_password hashPw db tok pw now).1
    unfold reset_password
    split
    · exact h
    · rename_i u hu
      have hmem := List.mem_of_find?_eq_some hu
      have htok : u.password_reset_token = some tok := by
        simpa using List.find?_some hu
      have hver : u.is_email_verified = true :=
        (h u hmem).2 (by simp [htok])
      split
      · exact userInvariant_saveUser db _ h
          ⟨fun hc => absurd hver
            (by simp [show u.is_email_verified = false from hc]),
           fun hc => absurd rfl hc⟩
      · exact userInvariant_saveUser db _ h
          ⟨fun hc => absurd hver
            (by simp [show u.is_email_verified = false from hc]),
           fun hc => absurd rfl hc⟩

/-- C5 (amended): registration, email verification, verification resend,
password-reset request and password-reset completion all preserve the
invariant that an unverified user is inactive (together with the auxiliary
invariant that a reset-token holder is verified), over any sequence of those
operations; the claim fails for `update_user`, which is in the claimed
operation list but can set `is_active = true` on an unverified user. -/
theorem claim_C5 (s : Settings) (hashPw : String → String) (ops : List UserOp)
    (db : DB) (h : userInvariant db) :
    userInvariant (ops.foldl (userStep s hashPw) db) := by
  induction ops generalizing db with
  | nil => exact h
  | cons op rest ih =>
    exact ih _ (userStep_invariant s hashPw db op h)

/-- C5, counterexample: `update_user` with `is_active = true` on the
unverified user `bob` yields a user row that is simultaneously active and
unverified, so not every claimed operation preserves the invariant. -/
theorem claim_C5_counterexample :
    (update_user fixHash svcDb 2
        { username := none, email := none, full_name := none, password := none,
          is_active := some true, is_superuser := none }).1.users =
      [aliceActive, bobForcedActive, carolInactive] ∧
    bobForcedActive.is_active = true ∧
    bobForcedActive.is_email_verified = false :=
  ⟨rfl, rfl, rfl⟩

/-- C5, witness: the amended theorem on a five-operation run from a state
satisfying the invariant. -/
theorem claim_C5_witness :
    userInvariant
      (([UserOp.registerOp
           { username := "frank", email := some "frank@example.com",
             password := "pw", full_name := none } "vtok" 0,
         UserOp.verifyEmailOp "vtok" 10,
         UserOp.requestResetOp "frank@example.com" "rtok" 20,
         UserOp.resendOp "bob@example.com" "nvtok" 30,
         UserOp.resetPasswordOp "x" "npw" 40] : List UserOp).foldl
        (userStep gateSettings fixHash) svcDb) :=
  claim_C5 gateSettings fixHash _ svcDb
    (by unfold userInvariant userOk; decide)

/-! ## C3 — session deactivation is monotonic -/

lemma sessOk_map (db : DB) (sid : Nat) (g : SessionRec → SessionRec)
    (hid : ∀ t, (g t).id = t.id)
    (hact : ∀ t, (g t).is_active = true → t.is_active = true)
    (h : sessOk db sid) :
    sessOk { db with sessions := db.sessions.map g } sid := by
  obtain ⟨hb, hlt, hin⟩ := h
  refine ⟨?_, hlt, ?_⟩
  · intro t ht
    simp only [List.mem_map] at ht
    obtain ⟨w, hw, rfl⟩ := ht
    rw [hid]
    exact hb w hw
  · intro t ht htid
    simp only [List.mem_map] at ht
    obtain ⟨w, hw, rfl⟩ := ht
    have hwid : w.id = sid := by rw [← hid w]; exact htid
    have hwin : w.is_active = false := hin w hw hwid
    by_contra hc
    have hgt : (g w).is_active = true := by simpa using hc
    exact absurd hwin (by simp [hact w hgt])

lemma sessOk_deactivate (db : DB) (sid sid' : Nat) (h : sessOk db sid) :
    sessOk (deactivate_user_session db sid') sid := by
  refine sessOk_map db sid _ ?_ ?_ h
  · intro t
    by_cases hc : t.id = sid' ∧ t.is_active <;> simp [hc]
  · intro t
    by_cases hc : t.id = sid' ∧ t.is_active <;> simp [hc]

lemma sessOk_deactivateAll (db : DB) (sid uid : Nat) (h : sessOk db sid) :
    sessOk (deactivate_all_user_sessions db uid).1 sid := by
  refine sessOk_map db sid _ ?_ ?_ h
  · intro t
    by_cases hc : t.user_id = uid ∧ t.is_active <;> simp [hc]
  · intro t
    by_cases hc : t.user_id = uid ∧ t.is_active <;> simp [hc]

lemma sessOk_append_fresh (db : DB) (sid : Nat) (new : SessionRec)
    (hnew : new.id = db.next_session_id) (h : sessOk db sid) :
    sessOk { db with sessions := db.sessions ++ [new],
                     next_session_id := db.next_session_id + 1 } sid := by
  obtain ⟨hb, hlt, hin⟩ := h
  refine ⟨?_, Nat.lt_succ_of_lt hlt, ?_⟩
  · intro t ht
    rcases List.mem_append.mp ht with h1 | h2
    · exact Nat.lt_succ_of_lt (hb t h1)
    · simp only [List.mem_singleton] at h2
      subst h2
      rw [hnew]
      exact Nat.lt_succ_self _
  · intro t ht htid
    rcases List.mem_append.mp ht with h1 | h2
    · exact hin t h1 htid
    · simp only [List.mem_singleton] at h2
      subst h2
      rw [hnew] at htid
      exact absurd htid (by omega)

lemma sessOk_create (s : Settings) (db : DB) (sid uid : Nat) (tok : Jwt)
    (now : Nat) (h : sessOk db sid) :
    sessOk (create_user_session s db uid tok now).1 sid := by
  unfold create_user_session
  split
  · exact h
  · exact sessOk_append_fresh db sid _ rfl h

lemma sessOk_login (s : Settings) (verifyPw : String → String → Bool) (db : DB)
    (sid : Nat) (u p : String) (now : Nat) (h : sessOk db sid) :
    sessOk (login s verifyPw db u p now).1 sid := by
  unfold login
  split
  · exact h
  · split
    · exact h
    · split
      · exact h
      · exact sessOk_create s db sid _ _ now h

lemma sessOk_refresh (s : Settings) (db : DB) (sid : Nat) (tok : Jwt)
    (now : Nat) (h : sessOk db sid) :
    sessOk (refresh_access_token s db tok now).1 sid := by
  unfold refresh_access_token
  split
  · exact h
  · exact h
  · exact h
  · split
    · exact h
    · split
      · exact h
      · split
        · exact h
        · split
          · exact sessOk_deactivate db sid _ h
          · split
            · exact sessOk_deactivate db sid _ h
            · split
              · exact sessOk_deactivate db sid _ h
              · exact sessOk_create s _ sid _ _ now
                  (sessOk_deactivate db sid _ h)

lemma sessOk_logout (db : DB) (sid : Nat) (a : Option TokenData) (tok : Jwt)
    (h : sessOk db sid) :
    sessOk (logout_user db a tok).1 sid := by
  unfold logout_user
  split
  · exact h
  · split
    · exact h
    · exact sessOk_deactivate db sid _ h

lemma sessOk_step (s : Settings) (verifyPw : String → String → Bool) (db : DB)
    (sid : Nat) (op : AuthOp) (h : sessOk db sid) :
    sessOk (authStep s verifyPw db op) sid := by
  cases op with
  | loginOp u p now => exact sessOk_login s verifyPw db sid u p now h
  | refreshOp tok now => exact sessOk_refresh s db sid tok now h
  | logoutOp a tok => exact sessOk_logout db sid a tok h
  | deactivateOp sid' => exact sessOk_deactivate db sid sid' h
  | deactivateAllOp uid => exact sessOk_deactivateAll db sid uid h

/-- C3: over any sequence of the session-touching operations starting from a
well-formed table, an id whose every row is inactive keeps that property —
once a session row's `is_active` is false, no later operation turns it back
on — while `create_user_session` (the only row constructor) always returns an
active row. -/
theorem claim_C3 (s : Settings) (verifyPw : String → String → Bool) (db : DB)
    (sid : Nat) (ops : List AuthOp)
    (hb : sessionIdsBounded db)
    (hlt : sid < db.next_session_id)
    (hin : idInactive db sid) :
    idInactive (ops.foldl (authStep s verifyPw) db) sid ∧
    (∀ db2 uid tok now sess,
      (create_user_session s db2 uid tok now).2 = .ok sess →
      sess.is_active = true) := by
  constructor
  · have main : ∀ (ops2 : List AuthOp) (db2 : DB), sessOk db2 sid →
        sessOk (ops2.foldl (authStep s verifyPw) db2) sid := by
      intro ops2
      induction ops2 with
      | nil => intro db2 h; exact h
      | cons op rest ih =>
        intro db2 h
        exact ih _ (sessOk_step s verifyPw db2 sid op h)
    exact (main ops db ⟨hb, hlt, hin⟩).2.2
  · intro db2 uid tok now sess heq
    unfold create_user_session at heq
    split at heq
    · simp at heq
    · simp only [Prod.mk.injEq, Except.ok.injEq] at heq
      rw [← heq]

/-- C3, witness: the theorem on a concrete run — login, a refresh of the
login token, a logout and a bulk deactivation — from a table holding the
inactive session with id 7. -/
theorem claim_C3_witness :
    idInactive
      (([AuthOp.loginOp "alice" "1" 0,
         AuthOp.refreshOp c1Tok 5,
         AuthOp.logoutOp none gateRefreshTok,
         AuthOp.deactivateAllOp 1] : List AuthOp).foldl
        (authStep gateSettings loginVerify) logoutDb2) 7 :=
  (claim_C3 gateSettings loginVerify logoutDb2 7 _
    (by unfold sessionIdsBounded; decide) (by decide)
    (by unfold idInactive; decide)).1
